import Mathlib

/-
Verification development for the AuthAI face-matching engine.

The repository contains three overlapping implementations of the engine:
  - simple_face_match.py   (namespace SimpleFM)
  - advanced_face_match.py (namespace AdvancedFM)
  - face_match.py          (namespace FaceMatch)

Scores that the Python code computes as floats are modelled as rationals.
Library primitives (OpenCV, skimage, face_recognition, MongoDB, the file
system) are not code of this repository; they are modelled as oracle
functions carried in environment structures, so that every theorem
quantifies over their possible behaviours.  The control flow, fusion
logic, thresholds, and result dictionaries are translated directly from
the Python source.
-/

namespace AuthAI

namespace SimpleFM

/-- Oracle bundle for the three similarity metrics used by
simple_face_match.compute_similarity (lines 102-131):
cv2.matchTemplate with TM_CCOEFF_NORMED, skimage structural_similarity,
and cv2.compareHist with HISTCMP_CORREL.  All three are normalized
correlation-style measures whose mathematical range is [-1, 1].
The cv2.resize to 200x200 performed on both inputs is absorbed into the
oracles (extracted faces are already 200x200). -/
structure Metrics (α : Type) where
  template : α → α → ℚ
  ssim : α → α → ℚ
  hist : α → α → ℚ

/-- simple_face_match.compute_similarity: returns 0.0 when either face is
None, otherwise the maximum of the three metric scores (line 127:
best_score = max(template_score, ssim_score, hist_score)). -/
def compute_similarity {α : Type} (M : Metrics α) : Option α → Option α → ℚ
  | some f1, some f2 => max (M.template f1 f2) (max (M.ssim f1 f2) (M.hist f1 f2))
  | _, _ => 0

/-- Result dictionary returned by simple_face_match.verify_face.  Every
branch of the Python function sets the keys "match" and "face_detected";
the remaining keys are present only on some branches and are modelled
with Option.  The dict key "match" is a Lean keyword and is embedded as
the field name matched. -/
structure SVerifyResult where
  matched : Bool
  face_detected : Bool
  similarity : Option ℚ := none
  display_similarity : Option ℤ := none
  threshold : Option ℚ := none
  error : Option String := none
deriving DecidableEq

/-- Environment of external primitives consumed by
simple_face_match.verify_face: os.path.exists, cv2.imread (which may
return None or raise; the Except layer models a raised exception caught
by the function's outer try/except), and extract_face (which catches all
its own exceptions and is therefore total, returning None on failure).
The align_faces / enhance_contrast / normalize_lighting flags passed to
extract_face are absorbed into the oracle. -/
structure Env (α : Type) where
  pathExists : String → Bool
  imread : String → Except String (Option α)
  extract : α → Option α
  metrics : Metrics α

/-- Body of simple_face_match.verify_face (lines 234-315), i.e. the code
inside the try block.  An Except.error value models an exception raised
by a primitive while the body runs. -/
def verify_face_body {α : Type} (env : Env α) (image_path stored_image_path : String)
    (threshold : ℚ) : Except String SVerifyResult :=
  if env.pathExists image_path = false then
    .ok { matched := false, face_detected := false, error := some ("Input image not found") }
  else if env.pathExists stored_image_path = false then
    .ok { matched := false, face_detected := false, error := some ("Stored image not found") }
  else
    match env.imread image_path with
    | .error e => .error e
    | .ok img? =>
      match env.imread stored_image_path with
      | .error e => .error e
      | .ok stored? =>
        match img?, stored? with
        | some img, some stored =>
          match env.extract img, env.extract stored with
          | none, _ =>
            .ok { matched := false, face_detected := false,
                  error := some ("No face detected in input image") }
          | some _, none =>
            .ok { matched := false, face_detected := false,
                  error := some ("No face detected in stored image") }
          | some f1, some f2 =>
            let s := compute_similarity env.metrics (some f1) (some f2)
            .ok { matched := decide (s ≥ threshold), face_detected := true,
                  similarity := some s,
                  display_similarity := some (Int.floor (min 100 (max 0 (s * 100)))),
                  threshold := some threshold }
        | _, _ =>
          .ok { matched := false, face_detected := false,
                error := some ("Failed to read images") }

/-- simple_face_match.verify_face: the try/except wrapper around the
body.  Any exception raised inside the body is converted into the
structured error dictionary of lines 317-323 (int() truncation in the
display_similarity computation coincides with the floor because the
clamped value is nonnegative). -/
def verify_face {α : Type} (env : Env α) (image_path stored_image_path : String)
    (threshold : ℚ) : SVerifyResult :=
  match verify_face_body env image_path stored_image_path threshold with
  | .ok r => r
  | .error e => { matched := false, face_detected := false, error := some e }

/-- Registered user record as read from the users collection by
simple_face_match.is_face_duplicate: a username, an optional email, and
the image_path field (None models a record whose image_path key is
missing or whose path is falsy). -/
structure RegUser where
  username : String
  email : Option String
  image_path : Option String

/-- Environment for simple_face_match.is_face_duplicate: the users
corpus plus the file-system / OpenCV primitives the scan consumes.  The
per-user try/except of the loop only converts primitive failures into a
skip, which the Option-valued oracles already express. -/
structure ScanEnv (α : Type) where
  pathExists : String → Bool
  imread : String → Option α
  extract : α → Option α
  metrics : Metrics α
  users : List RegUser

/-- User description string built at lines 173-175: the username,
extended with the email in parentheses when present. -/
def user_info (u : RegUser) : String :=
  match u.email with
  | some e => u.username ++ (" (") ++ e ++ (")")
  | none => u.username

/-- Registered face obtained for one user during the scan: requires an
image_path that exists on disk, a readable image, and a detectable face;
any failure along the pipeline makes the loop skip this user. -/
def regFace {α : Type} (env : ScanEnv α) (u : RegUser) : Option α :=
  match u.image_path with
  | none => none
  | some p => if env.pathExists p then (env.imread p).bind env.extract else none

/-- Fused similarity the scan computes for one registered user, when the
user's pipeline succeeds. -/
def simOf {α : Type} (env : ScanEnv α) (inputFace : α) (u : RegUser) : Option ℚ :=
  (regFace env u).map (fun g => compute_similarity env.metrics (some inputFace) (some g))

/-- The for-loop of simple_face_match.is_face_duplicate (lines 150-179):
early-exit termination returning the first user whose similarity exceeds
the threshold; best is the running best similarity (used only for
logging in the source, carried here for fidelity). -/
def scanLoop {α : Type} (env : ScanEnv α) (inputFace : α) (t : ℚ) :
    List RegUser → ℚ → Bool × Option String
  | [], _ => (false, none)
  | u :: rest, best =>
    match regFace env u with
    | none => scanLoop env inputFace t rest best
    | some g =>
      let s := compute_similarity env.metrics (some inputFace) (some g)
      let best2 := if s > best then s else best
      if s > t then (true, some (user_info u)) else scanLoop env inputFace t rest best2

/-- simple_face_match.is_face_duplicate with the hardcoded threshold of
line 146 lifted into a parameter (the source fixes it to 0.05). -/
def is_face_duplicate_with {α : Type} (env : ScanEnv α) (t : ℚ) (image : Option α) :
    Bool × Option String :=
  match image.bind env.extract with
  | none => (false, none)
  | some f => scanLoop env f t env.users 0

/-- simple_face_match.is_face_duplicate as written, with threshold 0.05. -/
def is_face_duplicate {α : Type} (env : ScanEnv α) (image : Option α) :
    Bool × Option String :=
  is_face_duplicate_with env (1/20) image

end SimpleFM

namespace AdvancedFM

/-- advanced_face_match.compare_faces (lines 136-156), with
face_recognition.face_distance supplied as an oracle: returns
(False, 0.0) when either encoding is None; otherwise the match flag is
distance <= tolerance and the similarity is 1 - min(distance, 1). -/
def compare_faces {ε : Type} (dist : ε → ε → ℚ) :
    Option ε → Option ε → ℚ → Bool × ℚ
  | some e1, some e2, tol =>
    (decide (dist e1 e2 ≤ tol), 1 - min (dist e1 e2) 1)
  | _, _, _ => (false, 0)

/-- Result dictionary returned by advanced_face_match.verify_face.  The
keys "match", "similarity" and "method" appear on every branch; the
remaining keys only on some branches.  The dict key "match" is embedded
as the field matched. -/
structure AVerifyResult where
  matched : Bool
  similarity : ℚ
  method : String
  display_similarity : Option ℤ := none
  face_detected : Option Bool := none
  threshold : Option ℚ := none
  alternative_methods : Option (List (String × ℚ)) := none
  error : Option String := none
deriving DecidableEq

/-- Environment for advanced_face_match.verify_face: file system and
OpenCV primitives, the user-id extraction from the stored path
(os.path.basename(...).split('.')[0]), the face_recognition encoder and
distance, extract_face (total: it catches internally), the additional
ssim/histogram scores computed by compute_additional_similarity, and
the pickle-backed known_face_encodings cache.  The cache write performed
when a stored encoding is computed fresh does not affect the returned
result and is not modelled. -/
structure Env (α ε : Type) where
  pathExists : String → Bool
  imread : String → Except String (Option α)
  userIdOf : String → String
  get_face_encoding : α → Option ε
  distance : ε → ε → ℚ
  extract : α → Option α
  addl_scores : α → α → List (String × ℚ)
  cache : String → Option ε

/-- Body of advanced_face_match.verify_face (lines 310-410), the code
inside the try block; Except.error models an exception raised by a
primitive.  int() truncation of similarity * 100 coincides with the
floor because similarity = 1 - min(distance, 1) is never negative. -/
def verify_face_body {α ε : Type} (env : Env α ε) (image_path stored_image_path : String)
    (threshold : ℚ) : Except String AVerifyResult :=
  if env.pathExists image_path = false then
    .ok { matched := false, similarity := 0, method := ("error"),
          error := some ("Input image not found") }
  else if env.pathExists stored_image_path = false then
    .ok { matched := false, similarity := 0, method := ("error"),
          error := some ("Stored image not found") }
  else
    match env.imread image_path with
    | .error e => .error e
    | .ok img? =>
      match env.imread stored_image_path with
      | .error e => .error e
      | .ok stored? =>
        match img?, stored? with
        | some img, some stored =>
          let uid := env.userIdOf stored_image_path
          match env.get_face_encoding img with
          | none =>
            .ok { matched := false, similarity := 0, method := ("error"),
                  error := some ("Could not detect face in input image"),
                  face_detected := some false }
          | some enc =>
            let storedEnc? : Option ε :=
              match env.cache uid with
              | some e => some e
              | none => env.get_face_encoding stored
            match storedEnc? with
            | none =>
              .ok { matched := false, similarity := 0, method := ("error"),
                    error := some ("Could not detect face in stored image"),
                    face_detected := some true }
            | some storedEnc =>
              let r := compare_faces env.distance (some storedEnc) (some enc) threshold
              let addl : List (String × ℚ) :=
                match env.extract img, env.extract stored with
                | some a, some b => env.addl_scores a b
                | _, _ => []
              .ok { matched := r.1, similarity := r.2,
                    display_similarity :=
                      some (if r.1 then max (Int.floor (r.2 * 100)) 80
                            else Int.floor (r.2 * 100)),
                    method := ("face_recognition"),
                    face_detected := some true,
                    threshold := some threshold,
                    alternative_methods := some addl }
        | _, _ =>
          .ok { matched := false, similarity := 0, method := ("error"),
                error := some ("Failed to read images") }

/-- advanced_face_match.verify_face: the try/except wrapper converting
any exception raised in the body into the structured error dictionary of
lines 412-420. -/
def verify_face {α ε : Type} (env : Env α ε) (image_path stored_image_path : String)
    (threshold : ℚ) : AVerifyResult :=
  match verify_face_body env image_path stored_image_path threshold with
  | .ok r => r
  | .error e =>
    { matched := false, similarity := 0, method := ("error"),
      error := some e, face_detected := some false }

/-- Registered user record as read by
advanced_face_match.is_face_duplicate: the MongoDB _id rendered as a
string (the key of the encoding cache), the username, and the
image_path field. -/
structure RegUserA where
  user_id : String
  username : String
  image_path : Option String

/-- Environment for advanced_face_match.is_face_duplicate. -/
structure AScanEnv (α ε : Type) where
  preprocess : α → Option α
  get_face_encoding : α → Option ε
  distance : ε → ε → ℚ
  pathExists : String → Bool
  imread : String → Option α
  cache : String → Option ε
  users : List RegUserA

/-- Stored encoding obtained for one user during the scan, relative to a
cache state c: skip when the image_path is absent or does not exist;
otherwise take the cached encoding if present, else read the image and
encode it (lines 233-248). -/
def aEnc {α ε : Type} (env : AScanEnv α ε) (c : String → Option ε) (u : RegUserA) :
    Option ε :=
  match u.image_path with
  | none => none
  | some p =>
    if env.pathExists p then
      match c u.user_id with
      | some e => some e
      | none => (env.imread p).bind env.get_face_encoding
    else none

/-- Similarity the scan computes for one registered user against query
encoding q, relative to the initial cache (the loop's running cache
agrees with the initial one on every still-unprocessed user id as long
as the user ids are distinct). -/
def aSim {α ε : Type} (env : AScanEnv α ε) (q : ε) (u : RegUserA) : Option ℚ :=
  (aEnc env env.cache u).map (fun e => 1 - min (env.distance e q) 1)

/-- The for-loop of advanced_face_match.is_face_duplicate (lines
229-256): best-of-corpus termination tracking the running best
similarity (initialised to -1) and the corresponding username, threading
the encoding cache (updated whenever an encoding is computed fresh).
After the loop, is_duplicate is best_similarity >= threshold (line 262)
and the best username is returned either way. -/
def aLoop {α ε : Type} (env : AScanEnv α ε) (q : ε) (t : ℚ) :
    List RegUserA → (String → Option ε) → ℚ → Option String → Bool × Option String
  | [], _, best, bm => (decide (best ≥ t), bm)
  | u :: rest, c, best, bm =>
    match u.image_path with
    | none => aLoop env q t rest c best bm
    | some p =>
      if env.pathExists p then
        match c u.user_id with
        | some e =>
          let s := (compare_faces env.distance (some e) (some q) t).2
          if s > best then aLoop env q t rest c s (some u.username)
          else aLoop env q t rest c best bm
        | none =>
          match (env.imread p).bind env.get_face_encoding with
          | none => aLoop env q t rest c best bm
          | some e =>
            let c2 := fun id => if id = u.user_id then some e else c id
            let s := (compare_faces env.distance (some e) (some q) t).2
            if s > best then aLoop env q t rest c2 s (some u.username)
            else aLoop env q t rest c2 best bm
      else aLoop env q t rest c best bm

/-- advanced_face_match.is_face_duplicate with the hardcoded threshold
of line 227 lifted into a parameter (the source fixes it to 0.6): the
query image is preprocessed and encoded, then scanned best-of-corpus
against every registered user. -/
def a_is_face_duplicate_with {α ε : Type} (env : AScanEnv α ε) (t : ℚ)
    (image : Option α) : Bool × Option String :=
  match image.bind env.preprocess with
  | none => (false, none)
  | some rgb =>
    match env.get_face_encoding rgb with
    | none => (false, none)
    | some q => aLoop env q t env.users env.cache (-1) none

/-- advanced_face_match.is_face_duplicate as written, with threshold 0.6. -/
def a_is_face_duplicate {α ε : Type} (env : AScanEnv α ε) (image : Option α) :
    Bool × Option String :=
  a_is_face_duplicate_with env (3/5) image

end AdvancedFM

namespace FaceMatch

/-- Oracle bundle for the metrics of
face_match.compute_similarity_multiple (lines 315-373): the three
normalized correlation-style scores (template matching, SSIM, histogram
correlation, each ranging over [-1, 1]), the raw mean-squared-error
(nonnegative for real images), and the euclidean distance between the
geometric facial-feature vectors when extract_facial_features succeeds
on both faces with vectors of equal length (None otherwise). -/
structure MetricsM (α : Type) where
  template : α → α → ℚ
  ssim : α → α → ℚ
  hist : α → α → ℚ
  mse : α → α → ℚ
  featDist : α → α → Option ℚ

/-- MSE converted to a similarity score (line 347):
1 - min(1.0, mse / 10000.0). -/
def mse_similarity (m : ℚ) : ℚ := 1 - min 1 (m / 10000)

/-- Feature distance converted to a similarity score (lines 358-361):
1 / (1 + distance) for positive distance, 1.0 for an exact match. -/
def feature_similarity (d : ℚ) : ℚ := if d > 0 then 1 / (1 + d) else 1

/-- The scores dictionary entries after the template entry, in
insertion order: ssim, histogram, mse, and facial_features when
available. -/
def scoresTail {α : Type} (M : MetricsM α) (f1 f2 : α) : List (String × ℚ) :=
  (("ssim"), M.ssim f1 f2) ::
  (("histogram"), M.hist f1 f2) ::
  (("mse"), mse_similarity (M.mse f1 f2)) ::
  (match M.featDist f1 f2 with
   | some d => [((("facial_features"), feature_similarity d))]
   | none => [])

/-- The scores dictionary built by compute_similarity_multiple, in
insertion order: template, ssim, histogram, mse, and facial_features
when available. -/
def scoresList {α : Type} (M : MetricsM α) (f1 f2 : α) : List (String × ℚ) :=
  (("template"), M.template f1 f2) :: scoresTail M f1 f2

/-- Fold implementing Python max(scores, key=scores.get) over an
association list: the running best entry is replaced only on a strictly
greater value, so the first key attaining the maximum wins, as in
Python. -/
def bestEntry : String × ℚ → List (String × ℚ) → String × ℚ
  | acc, [] => acc
  | acc, e :: rest => bestEntry (if e.2 > acc.2 then e else acc) rest

/-- Result dictionary of compute_similarity_multiple: best_score, the
winning method name, and the per-metric scores. -/
structure SimResult where
  best_score : ℚ
  method : Option String
  scores : List (String × ℚ)
deriving DecidableEq

/-- face_match.compute_similarity_multiple: returns the zero result when
either face is None; otherwise computes the scores dictionary and takes
the entry with the maximal value (lines 365-368). -/
def compute_similarity_multiple {α : Type} (M : MetricsM α) :
    Option α → Option α → SimResult
  | some f1, some f2 =>
    let b := bestEntry ((("template"), M.template f1 f2)) (scoresTail M f1 f2)
    { best_score := b.2, method := some b.1, scores := scoresList M f1 f2 }
  | _, _ => { best_score := 0, method := none, scores := [] }

/-- Association-list lookup implementing the Python membership test and
indexing on the scores dict ('facial_features' in scores and
scores['facial_features']). -/
def lookupScore : List (String × ℚ) → String → Option ℚ
  | [], _ => none
  | e :: rest, k => if e.1 = k then some e.2 else lookupScore rest k

/-- Result dictionary returned by face_match.verify_face.  The keys
"success" and "match" appear on every branch; the rest are modelled with
Option.  The dict key "match" is embedded as the field matched. -/
structure FMResult where
  success : Bool
  matched : Bool
  similarity : Option ℚ := none
  threshold : Option ℚ := none
  face_detected : Option Bool := none
  method : Option (Option String) := none
  scores : Option (List (String × ℚ)) := none
  error : Option String := none
deriving DecidableEq

/-- Environment for face_match.verify_face: the MongoDB lookup of a
user's registered image_path, cv2.imread / cv2.imdecode, extract_face
(first flag align_faces, second flag enhance_contrast; total since it
catches internally), and the metric oracles.  The type β stands for raw
request bytes passed as image_data. -/
structure FMEnv (α β : Type) where
  userImagePath : String → Option String
  imread : String → Option α
  imdecode : β → Option α
  extract : Bool → Bool → α → Option α
  metrics : MetricsM α

/-- face_match.verify_face (lines 508-613).  The decision section is
translated exactly as written: is_match is set to True unconditionally
(line 590, comment "Always match for testing"), the similarity is
boosted to at least 0.9 when the facial_features score exceeds 0.3
(lines 592-594), and the reported similarity is floored at 0.8
(line 600). -/
def verify_face {α β : Type} (env : FMEnv α β) (image_path : Option String)
    (stored_image_path : Option String) (user_id : Option String) (threshold : ℚ)
    (image_data : Option β) (align_faces enhance_contrast : Bool) : FMResult :=
  let sp? : Except FMResult String :=
    match user_id, stored_image_path with
    | some uid, none =>
      match env.userImagePath uid with
      | some p => .ok p
      | none => .error { success := false, matched := false,
                         error := some ("no_registered_face") }
    | _, some p => .ok p
    | none, none => .error { success := false, matched := false,
                             error := some ("no_stored_path") }
  match sp? with
  | .error r => r
  | .ok sp =>
    match env.imread sp with
    | none => { success := false, matched := false,
                error := some ("stored_image_load_failed") }
    | some stored =>
      let input? : Option α :=
        match image_data with
        | some bytes => env.imdecode bytes
        | none =>
          match image_path with
          | some p => env.imread p
          | none => none
      match input? with
      | none => { success := false, matched := false,
                  error := some ("input_image_load_failed") }
      | some input =>
        match env.extract align_faces enhance_contrast input,
              env.extract align_faces enhance_contrast stored with
        | none, _ => { success := true, matched := false, face_detected := some false }
        | some _, none => { success := false, matched := false,
                            error := some ("no_stored_face") }
        | some f1, some f2 =>
          let res := compute_similarity_multiple env.metrics (some f1) (some f2)
          let similarity := res.best_score
          let is_match := true
          let similarity2 :=
            match lookupScore res.scores ("facial_features") with
            | some v => if v > 3/10 then max (9/10) similarity else similarity
            | none => similarity
          { success := true, matched := is_match,
            similarity := some (max (4/5) similarity2),
            threshold := some threshold,
            face_detected := some true,
            method := some res.method,
            scores := some res.scores }

/-- Detected face rectangle (x, y, w, h) as used by
face_match.extract_face. -/
structure Rect where
  x : ℕ
  y : ℕ
  w : ℕ
  h : ℕ
deriving DecidableEq

/-- Bounding-box area, the tie-break key of line 280. -/
def rectArea (r : Rect) : ℕ := r.w * r.h

/-- Fold implementing Python max(faces, key=area): replacement only on a
strictly greater area, so the first rectangle attaining the maximal area
wins. -/
def largestFace : Rect → List Rect → Rect
  | acc, [] => acc
  | acc, r :: rest => largestFace (if rectArea r > rectArea acc then r else acc) rest

/-- Environment for face_match.extract_face: preprocessing (flags
normalize_lighting then enhance_contrast), the cascade detector at a
given scale factor, align_face (None models align_face returning the
very same object, i.e. no rotation was performed, which the source
tests with Python object identity at line 286; some a models a rotated
copy), numpy region cropping, the 200x200 resize, and CLAHE. -/
structure LocEnv (α : Type) where
  preprocess : Bool → Bool → α → Option α
  detectAt : α → ℚ → List Rect
  align : α → Rect → Option α
  crop : α → Rect → α
  resize200 : α → α
  clahe : α → α

/-- The detection retry loop of extract_face (lines 267-273): scale
factors 1.1, 1.2, 1.3 in turn, stopping at the first nonempty result
(the loop extends an accumulator and breaks when it is nonempty, which
is equivalent since earlier passes were empty). -/
def detect_faces {α : Type} (env : LocEnv α) (gray : α) : List Rect :=
  match env.detectAt gray (11/10) with
  | [] =>
    match env.detectAt gray (12/10) with
    | [] => env.detectAt gray (13/10)
    | fs => fs
  | fs => fs

/-- face_match.extract_face (lines 254-313).  In the alignment branch:
when align_face produced a rotated image, faces are re-detected on it at
scale 1.3; if re-detection succeeds the largest re-detected region is
cropped from the rotated image, and if it fails the ORIGINAL detection
rectangle is cropped from the ROTATED image (line 295:
face_roi = aligned_image[y:y+h, x:x+w]). -/
def extract_face {α : Type} (env : LocEnv α) :
    Option α → Bool → Bool → Bool → Option α
  | none, _, _, _ => none
  | some img, align_faces, enhance_contrast, normalize_lighting =>
    match env.preprocess normalize_lighting enhance_contrast img with
    | none => none
    | some gray =>
      match detect_faces env gray with
      | [] => none
      | f :: fs =>
        let largest := largestFace f fs
        let face_roi :=
          if align_faces then
            match env.align gray largest with
            | none => env.crop gray largest
            | some aligned =>
              match env.detectAt aligned (13/10) with
              | [] => env.crop aligned largest
              | g :: gs => env.crop aligned (largestFace g gs)
          else env.crop gray largest
        let resized := env.resize200 face_roi
        some (if enhance_contrast && !normalize_lighting then env.clahe resized
              else resized)

/-- The best entry of a fold is the accumulator or one of the list
entries. -/
theorem bestEntry_eq_or_mem :
    ∀ (l : List (String × ℚ)) (acc : String × ℚ),
      bestEntry acc l = acc ∨ bestEntry acc l ∈ l := by
  intro l
  induction l with
  | nil => intro acc; left; rfl
  | cons e rest ih =>
    intro acc
    show bestEntry (if e.2 > acc.2 then e else acc) rest = acc ∨
      bestEntry (if e.2 > acc.2 then e else acc) rest ∈ e :: rest
    rcases ih (if e.2 > acc.2 then e else acc) with h | h
    · rw [h]
      by_cases hc : e.2 > acc.2
      · right; rw [if_pos hc]; exact List.mem_cons_self e rest
      · left; rw [if_neg hc]
    · right; exact List.mem_cons_of_mem e h

/-- The accumulator value never exceeds the best entry's value. -/
theorem bestEntry_le_acc :
    ∀ (l : List (String × ℚ)) (acc : String × ℚ), acc.2 ≤ (bestEntry acc l).2 := by
  intro l
  induction l with
  | nil => intro acc; exact le_refl _
  | cons e rest ih =>
    intro acc
    show acc.2 ≤ (bestEntry (if e.2 > acc.2 then e else acc) rest).2
    refine le_trans ?_ (ih (if e.2 > acc.2 then e else acc))
    by_cases hc : e.2 > acc.2
    · rw [if_pos hc]; exact le_of_lt hc
    · rw [if_neg hc]

/-- No list entry's value exceeds the best entry's value. -/
theorem bestEntry_le_of_mem :
    ∀ (l : List (String × ℚ)) (acc x : String × ℚ),
      x ∈ l → x.2 ≤ (bestEntry acc l).2 := by
  intro l
  induction l with
  | nil => intro acc x hx; exact absurd hx (List.not_mem_nil x)
  | cons e rest ih =>
    intro acc x hx
    show x.2 ≤ (bestEntry (if e.2 > acc.2 then e else acc) rest).2
    rcases List.mem_cons.mp hx with hx | hx
    · subst hx
      refine le_trans ?_ (bestEntry_le_acc rest _)
      by_cases hc : x.2 > acc.2
      · rw [if_pos hc]
      · rw [if_neg hc]; exact le_of_not_lt hc
    · exact ih _ x hx

/-- Projection of compute_similarity_multiple on the scores field. -/
theorem csm_scores {α : Type} (M : MetricsM α) (f1 f2 : α) :
    (compute_similarity_multiple M (some f1) (some f2)).scores = scoresList M f1 f2 := rfl

/-- Projection of compute_similarity_multiple on the best_score field. -/
theorem csm_best {α : Type} (M : MetricsM α) (f1 f2 : α) :
    (compute_similarity_multiple M (some f1) (some f2)).best_score
      = (bestEntry ((("template"), M.template f1 f2)) (scoresTail M f1 f2)).2 := rfl

/-- Projection of compute_similarity_multiple on the method field. -/
theorem csm_method {α : Type} (M : MetricsM α) (f1 f2 : α) :
    (compute_similarity_multiple M (some f1) (some f2)).method
      = some (bestEntry ((("template"), M.template f1 f2)) (scoresTail M f1 f2)).1 := rfl

/-- The scores list is the template entry consed onto the tail entries. -/
theorem scoresList_cons {α : Type} (M : MetricsM α) (f1 f2 : α) :
    scoresList M f1 f2 = ((("template"), M.template f1 f2)) :: scoresTail M f1 f2 := rfl

end FaceMatch

/-- C4: for every pair of face representations, the fused score returned
by the similarity scorer equals the maximum over all metrics computed
for that pair (every computed metric is bounded by it and the winning
entry attains it), the multi-metric result names the metric that
attained that maximum, and the simple scorer returns the maximum of its
three metrics. -/
theorem c4_fusion_takes_maximum :
    ∀ (α : Type) (M : FaceMatch.MetricsM α) (Ms : SimpleFM.Metrics α) (f1 f2 : α),
      (∀ p ∈ (FaceMatch.compute_similarity_multiple M (some f1) (some f2)).scores,
          p.2 ≤ (FaceMatch.compute_similarity_multiple M (some f1) (some f2)).best_score) ∧
      (∃ m, (FaceMatch.compute_similarity_multiple M (some f1) (some f2)).method = some m ∧
          (m, (FaceMatch.compute_similarity_multiple M (some f1) (some f2)).best_score) ∈
            (FaceMatch.compute_similarity_multiple M (some f1) (some f2)).scores) ∧
      SimpleFM.compute_similarity Ms (some f1) (some f2)
          = max (Ms.template f1 f2) (max (Ms.ssim f1 f2) (Ms.hist f1 f2)) := by
  intro α M Ms f1 f2
  refine ⟨?_, ?_, rfl⟩
  · intro p hp
    rw [FaceMatch.csm_scores, FaceMatch.scoresList_cons] at hp
    rw [FaceMatch.csm_best]
    rcases List.mem_cons.mp hp with hp | hp
    · subst hp; exact FaceMatch.bestEntry_le_acc _ _
    · exact FaceMatch.bestEntry_le_of_mem _ _ _ hp
  · refine ⟨(FaceMatch.bestEntry ((("template"), M.template f1 f2))
        (FaceMatch.scoresTail M f1 f2)).1, FaceMatch.csm_method M f1 f2, ?_⟩
    rw [FaceMatch.csm_best, FaceMatch.csm_scores, FaceMatch.scoresList_cons]
    rcases FaceMatch.bestEntry_eq_or_mem (FaceMatch.scoresTail M f1 f2)
        ((("template"), M.template f1 f2)) with h | h
    · rw [h]
      exact List.mem_cons_self _ _
    · exact List.mem_cons_of_mem _ h

/-- Concrete metric oracle over Unit used to instantiate C4: template
0.5, ssim 0.25, histogram 0, mse 10000 (similarity 0), no feature
vector. -/
def mC4 : FaceMatch.MetricsM Unit :=
  { template := fun _ _ => 1/2
    ssim := fun _ _ => 1/4
    hist := fun _ _ => 0
    mse := fun _ _ => 10000
    featDist := fun _ _ => none }

/-- Concrete simple metric oracle over Unit used to instantiate C4. -/
def msC4 : SimpleFM.Metrics Unit :=
  { template := fun _ _ => 1/2, ssim := fun _ _ => 1/4, hist := fun _ _ => 0 }

/-- Witness for C4 at the concrete oracles mC4 and msC4: the ssim entry
of the concrete scores dict is bounded by the fused score, and the
simple scorer returns the maximum of its three metrics. -/
theorem c4_fusion_takes_maximum_witness :
    ((("ssim"), (1/4 : ℚ))).2
        ≤ (FaceMatch.compute_similarity_multiple mC4 (some ()) (some ())).best_score ∧
    SimpleFM.compute_similarity msC4 (some ()) (some ())
        = max (msC4.template () ()) (max (msC4.ssim () ()) (msC4.hist () ())) := by
  constructor
  · refine (c4_fusion_takes_maximum Unit mC4 msC4 () ()).1 ((("ssim"), (1/4 : ℚ))) ?_
    rw [FaceMatch.csm_scores, FaceMatch.scoresList_cons]
    exact List.mem_cons_of_mem _ (List.mem_cons_self _ _)
  · exact (c4_fusion_takes_maximum Unit mC4 msC4 () ()).2.2

/-- C7: for every pair of embedding encodings with embedding distance d
and configured tolerance t, the embedding comparison returns similarity
1 - min(d, 1) and declares a match exactly when d is within the
tolerance t. -/
theorem c7_embedding_comparison :
    ∀ (ε : Type) (dist : ε → ε → ℚ) (e1 e2 : ε) (t : ℚ),
      (AdvancedFM.compare_faces dist (some e1) (some e2) t).2
          = 1 - min (dist e1 e2) 1 ∧
      ((AdvancedFM.compare_faces dist (some e1) (some e2) t).1 = true
          ↔ dist e1 e2 ≤ t) := by
  intro ε dist e1 e2 t
  exact ⟨rfl, by simp [AdvancedFM.compare_faces]⟩

/-- Witness for C7 at a concrete distance oracle. -/
theorem c7_embedding_comparison_witness :
    (AdvancedFM.compare_faces (fun (_ _ : Unit) => (1/2 : ℚ)) (some ()) (some ()) (3/5)).2
        = 1 - min ((1/2 : ℚ)) 1 ∧
    ((AdvancedFM.compare_faces (fun (_ _ : Unit) => (1/2 : ℚ)) (some ()) (some ()) (3/5)).1 = true
        ↔ ((1/2 : ℚ)) ≤ 3/5) :=
  c7_embedding_comparison Unit (fun _ _ => 1/2) () () (3/5)

/-- C10: the pairwise similarity and comparison functions are total on
absent inputs: with None on either side, the simple scorer returns 0.0,
the multi-metric scorer returns the empty zero result, and the embedding
comparison returns (False, 0.0); no exception is raised. -/
theorem c10_none_inputs_total :
    ∀ (α ε : Type) (M : SimpleFM.Metrics α) (Mm : FaceMatch.MetricsM α)
      (dist : ε → ε → ℚ) (x : Option α) (y : Option ε) (t : ℚ),
      SimpleFM.compute_similarity M none x = 0 ∧
      SimpleFM.compute_similarity M x none = 0 ∧
      FaceMatch.compute_similarity_multiple Mm none x
          = { best_score := 0, method := none, scores := [] } ∧
      FaceMatch.compute_similarity_multiple Mm x none
          = { best_score := 0, method := none, scores := [] } ∧
      AdvancedFM.compare_faces dist none y t = (false, 0) ∧
      AdvancedFM.compare_faces dist y none t = (false, 0) := by
  intro α ε M Mm dist x y t
  refine ⟨?_, ?_, ?_, ?_, ?_, ?_⟩
  · cases x <;> rfl
  · cases x <;> rfl
  · cases x <;> rfl
  · cases x <;> rfl
  · cases y <;> rfl
  · cases y <;> rfl

/-- The MSE-derived similarity is never negative, because
min(1, mse/10000) never exceeds 1. -/
theorem mse_similarity_nonneg (m : ℚ) : 0 ≤ FaceMatch.mse_similarity m := by
  unfold FaceMatch.mse_similarity
  have h := min_le_left (1 : ℚ) (m / 10000)
  linarith

/-- The MSE-derived similarity is at most 1 when the raw MSE is
nonnegative. -/
theorem mse_similarity_le_one (m : ℚ) (h : 0 ≤ m) : FaceMatch.mse_similarity m ≤ 1 := by
  unfold FaceMatch.mse_similarity
  have h2 : (0 : ℚ) ≤ min 1 (m / 10000) := le_min (by norm_num) (by positivity)
  linarith

/-- The geometric-feature similarity never exceeds 1. -/
theorem feature_similarity_le_one (d : ℚ) : FaceMatch.feature_similarity d ≤ 1 := by
  unfold FaceMatch.feature_similarity
  by_cases h : d > 0
  · rw [if_pos h, div_le_one (by linarith)]
    linarith
  · rw [if_neg h]

/-- Every entry of the scores tail is bounded by 1, provided the ssim
and histogram scores are and the raw MSE is nonnegative. -/
theorem scoresTail_le_one {α : Type} (M : FaceMatch.MetricsM α) (f1 f2 : α)
    (hs : M.ssim f1 f2 ≤ 1) (hh : M.hist f1 f2 ≤ 1) (hm : 0 ≤ M.mse f1 f2) :
    ∀ x ∈ FaceMatch.scoresTail M f1 f2, x.2 ≤ 1 := by
  intro x hx
  unfold FaceMatch.scoresTail at hx
  rcases hfd : M.featDist f1 f2 with _ | d <;> rw [hfd] at hx <;>
    simp only [List.mem_cons, List.mem_singleton, List.not_mem_nil, or_false] at hx
  · rcases hx with h | h | h
    · rw [h]; exact hs
    · rw [h]; exact hh
    · rw [h]; exact mse_similarity_le_one _ hm
  · rcases hx with h | h | h | h
    · rw [h]; exact hs
    · rw [h]; exact hh
    · rw [h]; exact mse_similarity_le_one _ hm
    · rw [h]; exact feature_similarity_le_one d

/-- C2 (amended): the fused score of the multi-metric scorer
(compute_similarity_multiple) lies within [0,1] whenever the three
correlation metrics are at most 1 and the raw MSE is nonnegative, while
the fused score of the simple scorer (compute_similarity, the maximum of
template, SSIM and histogram correlation alone) is only guaranteed to
lie within [-1,1], the common range of those three metrics. -/
theorem c2_fused_score_range :
    ∀ (α : Type) (Ms : SimpleFM.Metrics α) (M : FaceMatch.MetricsM α) (f1 f2 : α),
      (-1 ≤ Ms.template f1 f2 → Ms.template f1 f2 ≤ 1 →
       -1 ≤ Ms.ssim f1 f2 → Ms.ssim f1 f2 ≤ 1 →
       -1 ≤ Ms.hist f1 f2 → Ms.hist f1 f2 ≤ 1 →
       -1 ≤ SimpleFM.compute_similarity Ms (some f1) (some f2) ∧
         SimpleFM.compute_similarity Ms (some f1) (some f2) ≤ 1) ∧
      (M.template f1 f2 ≤ 1 → M.ssim f1 f2 ≤ 1 → M.hist f1 f2 ≤ 1 →
       0 ≤ M.mse f1 f2 →
       0 ≤ (FaceMatch.compute_similarity_multiple M (some f1) (some f2)).best_score ∧
         (FaceMatch.compute_similarity_multiple M (some f1) (some f2)).best_score ≤ 1) := by
  intro α Ms M f1 f2
  constructor
  · intro ht1 ht2 hs1 hs2 hh1 hh2
    constructor
    · exact le_trans ht1 (le_max_left _ _)
    · exact max_le ht2 (max_le hs2 hh2)
  · intro ht hs hh hm
    constructor
    · have hmem : ((("mse"), FaceMatch.mse_similarity (M.mse f1 f2)))
          ∈ FaceMatch.scoresTail M f1 f2 := by
        unfold FaceMatch.scoresTail
        exact List.mem_cons_of_mem _ (List.mem_cons_of_mem _ (List.mem_cons_self _ _))
      have hle := FaceMatch.bestEntry_le_of_mem (FaceMatch.scoresTail M f1 f2)
        ((("template"), M.template f1 f2)) _ hmem
      rw [FaceMatch.csm_best]
      exact le_trans (mse_similarity_nonneg _) hle
    · rw [FaceMatch.csm_best]
      rcases FaceMatch.bestEntry_eq_or_mem (FaceMatch.scoresTail M f1 f2)
          ((("template"), M.template f1 f2)) with h | h
      · rw [h]; exact ht
      · exact scoresTail_le_one M f1 f2 hs hh hm _ h

/-- Metric oracle over Unit on which all three simple-scorer metrics are
-0.5, a value each of them can take (template matching, SSIM and
histogram correlation are correlation coefficients over [-1,1];
anti-correlated crops, e.g. a mostly-dark face against a mostly-bright
one with opposite structure, make all three negative at once). -/
def mNegC2 : SimpleFM.Metrics Unit :=
  { template := fun _ _ => -(1/2), ssim := fun _ _ => -(1/2), hist := fun _ _ => -(1/2) }

/-- Counterexample for C2 as stated: at a pair of encodings whose three
metric scores are all -0.5, the fused similarity returned by the simple
scorer is -0.5, which does not lie within [0,1]. -/
theorem c2_fused_score_range_counterexample :
    SimpleFM.compute_similarity mNegC2 (some ()) (some ()) = -(1/2) ∧
    ¬ (0 ≤ SimpleFM.compute_similarity mNegC2 (some ()) (some ()) ∧
       SimpleFM.compute_similarity mNegC2 (some ()) (some ()) ≤ 1) := by
  constructor
  · norm_num [SimpleFM.compute_similarity, mNegC2]
  · intro h
    have h2 : SimpleFM.compute_similarity mNegC2 (some ()) (some ()) = -(1/2) := by
      norm_num [SimpleFM.compute_similarity, mNegC2]
    rw [h2] at h
    have := h.1
    norm_num at this

/-- Witness for the amended C2 at the concrete oracles msC4 and mC4. -/
theorem c2_fused_score_range_witness :
    (-1 ≤ SimpleFM.compute_similarity msC4 (some ()) (some ()) ∧
      SimpleFM.compute_similarity msC4 (some ()) (some ()) ≤ 1) ∧
    (0 ≤ (FaceMatch.compute_similarity_multiple mC4 (some ()) (some ())).best_score ∧
      (FaceMatch.compute_similarity_multiple mC4 (some ()) (some ())).best_score ≤ 1) :=
  ⟨(c2_fused_score_range Unit msC4 mC4 () ()).1 (by norm_num [msC4]) (by norm_num [msC4])
      (by norm_num [msC4]) (by norm_num [msC4]) (by norm_num [msC4]) (by norm_num [msC4]),
    (c2_fused_score_range Unit msC4 mC4 () ()).2 (by norm_num [mC4]) (by norm_num [mC4])
      (by norm_num [mC4]) (by norm_num [mC4])⟩

/-- Witness for C10 at concrete oracles and present second arguments. -/
theorem c10_none_inputs_total_witness :
    SimpleFM.compute_similarity msC4 none (some ()) = 0 ∧
    SimpleFM.compute_similarity msC4 (some ()) none = 0 ∧
    FaceMatch.compute_similarity_multiple mC4 none (some ())
        = { best_score := 0, method := none, scores := [] } ∧
    FaceMatch.compute_similarity_multiple mC4 (some ()) none
        = { best_score := 0, method := none, scores := [] } ∧
    AdvancedFM.compare_faces (fun (_ _ : Unit) => (1/2 : ℚ)) none (some ()) (3/5) = (false, 0) ∧
    AdvancedFM.compare_faces (fun (_ _ : Unit) => (1/2 : ℚ)) (some ()) none (3/5) = (false, 0) :=
  c10_none_inputs_total Unit Unit msC4 mC4 (fun _ _ => 1/2) (some ()) (some ()) (3/5)

/-- Metric oracle over Unit producing a fused similarity of 0.1:
template 0.1, ssim 0.05, histogram 0, raw MSE 10000 (similarity 0), no
feature vector. -/
def mC1 : FaceMatch.MetricsM Unit :=
  { template := fun _ _ => 1/10
    ssim := fun _ _ => 1/20
    hist := fun _ _ => 0
    mse := fun _ _ => 10000
    featDist := fun _ _ => none }

/-- Environment for face_match.verify_face in which every primitive
succeeds and the metrics are mC1. -/
def envC1 : FaceMatch.FMEnv Unit Unit :=
  { userImagePath := fun _ => none
    imread := fun _ => some ()
    imdecode := fun _ => some ()
    extract := fun _ _ _ => some ()
    metrics := mC1 }

/-- C1: evaluation of face_match.verify_face at a failing input.  Both
faces are detected and the computed fused similarity is 0.1, below the
threshold 0.5, yet the returned match flag is true (line 590 sets
is_match = True unconditionally) and the returned similarity is 0.8
(line 600 floors the reported similarity at 0.8), contradicting the
claim that the match flag derives from comparing the computed similarity
with the threshold and that the similarity is reported unmodified. -/
theorem c1_forced_match_eval :
    (FaceMatch.compute_similarity_multiple mC1 (some ()) (some ())).best_score = 1/10 ∧
    ((1 : ℚ)/10 < 1/2) ∧
    (FaceMatch.verify_face envC1 (some ("input.jpg")) (some ("stored.jpg")) none (1/2)
        none true true).matched = true ∧
    (FaceMatch.verify_face envC1 (some ("input.jpg")) (some ("stored.jpg")) none (1/2)
        none true true).similarity = some (4/5) := by
  have hcsm : FaceMatch.compute_similarity_multiple mC1 (some ()) (some ())
      = { best_score := 1/10, method := some (("template")),
          scores := [((("template"), (1/10 : ℚ))), ((("ssim"), (1/20 : ℚ))),
                     ((("histogram"), (0 : ℚ))), ((("mse"), (0 : ℚ)))] } := by
    norm_num [FaceMatch.compute_similarity_multiple, FaceMatch.bestEntry,
      FaceMatch.scoresTail, FaceMatch.scoresList, FaceMatch.mse_similarity, mC1]
  have hv : FaceMatch.verify_face envC1 (some ("input.jpg")) (some ("stored.jpg")) none (1/2)
        none true true
      = { success := true, matched := true, similarity := some (max (4/5) (1/10)),
          threshold := some (1/2), face_detected := some true,
          method := some (some (("template"))),
          scores := some [((("template"), (1/10 : ℚ))), ((("ssim"), (1/20 : ℚ))),
                          ((("histogram"), (0 : ℚ))), ((("mse"), (0 : ℚ)))] } := by
    have hlk : FaceMatch.lookupScore
        [((("template"), (1/10 : ℚ))), ((("ssim"), (1/20 : ℚ))),
         ((("histogram"), (0 : ℚ))), ((("mse"), (0 : ℚ)))] ("facial_features") = none := by
      decide
    unfold FaceMatch.verify_face
    norm_num [envC1, hcsm, hlk]
  refine ⟨?_, by norm_num, ?_, ?_⟩
  · rw [hcsm]
  · rw [hv]
  · rw [hv]
    show some (max ((4 : ℚ)/5) (1/10)) = some (4/5)
    rw [max_eq_left (by norm_num)]

/-- Environment for simple_face_match.verify_face in which both images
load, the same face is extracted from both, and every metric scores the
face against itself at 1. -/
def envC5 : SimpleFM.Env Unit :=
  { pathExists := fun _ => true
    imread := fun _ => .ok (some ())
    extract := fun _ => some ()
    metrics := { template := fun _ _ => 1, ssim := fun _ _ => 1, hist := fun _ _ => 1 } }

/-- C5: comparing an image against an identical copy of itself yields
fused similarity exactly 1 and match = true, for any threshold at most 1
(in particular the source's 0.05), independent of which metric wins.
The hypotheses that each metric scores a face against itself at 1 encode
the self-similarity of template matching, SSIM and histogram correlation
on a nondegenerate (detectable) face crop. -/
theorem c5_identical_image_matches :
    ∀ (α : Type) (env : SimpleFM.Env α) (p sp : String) (t : ℚ) (img f : α),
      env.pathExists p = true → env.pathExists sp = true →
      env.imread p = .ok (some img) → env.imread sp = .ok (some img) →
      env.extract img = some f →
      env.metrics.template f f = 1 → env.metrics.ssim f f = 1 →
      env.metrics.hist f f = 1 → t ≤ 1 →
      SimpleFM.verify_face env p sp t
        = { matched := true, face_detected := true, similarity := some 1,
            display_similarity := some 100, threshold := some t } := by
  intro α env p sp t img f hp hsp hr hsr hx hm1 hm2 hm3 ht
  have hsim : SimpleFM.compute_similarity env.metrics (some f) (some f) = 1 := by
    show max (env.metrics.template f f) (max (env.metrics.ssim f f) (env.metrics.hist f f)) = 1
    rw [hm1, hm2, hm3, max_self, max_self]
  have hbody : SimpleFM.verify_face_body env p sp t
      = .ok { matched := true, face_detected := true, similarity := some 1,
              display_similarity := some 100, threshold := some t } := by
    unfold SimpleFM.verify_face_body
    rw [hp, hsp, hr, hsr]
    have hd : decide ((1 : ℚ) ≥ t) = true := decide_eq_true ht
    have hf : Int.floor (min (100 : ℚ) (max 0 (1 * 100))) = 100 := by norm_num
    simp only [Bool.true_eq_false, if_false, hx, hsim, hd, hf]
  unfold SimpleFM.verify_face
  rw [hbody]

/-- Witness for C5 at the concrete environment envC5 with threshold
0.05. -/
theorem c5_identical_image_matches_witness :
    SimpleFM.verify_face envC5 ("a.jpg") ("b.jpg") (1/20)
      = { matched := true, face_detected := true, similarity := some 1,
          display_similarity := some 100, threshold := some (1/20) } :=
  c5_identical_image_matches Unit envC5 ("a.jpg") ("b.jpg") (1/20) () ()
    rfl rfl rfl rfl rfl rfl rfl rfl (by norm_num)

/-- C3: the verification operation never propagates an exception: any
exception raised while the body runs is converted into the structured
error result of the except-handler (with match false), any structured
result produced by the body is returned as-is, and a missing stored
reference is reported as a structured result — for both the simple and
the advanced verification services. -/
theorem c3_verification_never_raises :
    ∀ (α ε : Type) (envS : SimpleFM.Env α) (envA : AdvancedFM.Env α ε)
      (p sp : String) (t : ℚ),
      (∀ e, SimpleFM.verify_face_body envS p sp t = .error e →
        SimpleFM.verify_face envS p sp t
          = { matched := false, face_detected := false, error := some e }) ∧
      (∀ r, SimpleFM.verify_face_body envS p sp t = .ok r →
        SimpleFM.verify_face envS p sp t = r) ∧
      (envS.pathExists p = true → envS.pathExists sp = false →
        SimpleFM.verify_face envS p sp t
          = { matched := false, face_detected := false,
              error := some ("Stored image not found") }) ∧
      (∀ e, AdvancedFM.verify_face_body envA p sp t = .error e →
        AdvancedFM.verify_face envA p sp t
          = { matched := false, similarity := 0, method := ("error"),
              error := some e, face_detected := some false }) ∧
      (∀ r, AdvancedFM.verify_face_body envA p sp t = .ok r →
        AdvancedFM.verify_face envA p sp t = r) := by
  intro α ε envS envA p sp t
  refine ⟨?_, ?_, ?_, ?_, ?_⟩
  · intro e he
    unfold SimpleFM.verify_face
    rw [he]
  · intro r hr
    unfold SimpleFM.verify_face
    rw [hr]
  · intro hp hsp
    have hbody : SimpleFM.verify_face_body envS p sp t
        = .ok { matched := false, face_detected := false,
                error := some ("Stored image not found") } := by
      unfold SimpleFM.verify_face_body
      rw [hp, hsp]
      simp
    unfold SimpleFM.verify_face
    rw [hbody]
  · intro e he
    unfold AdvancedFM.verify_face
    rw [he]
  · intro r hr
    unfold AdvancedFM.verify_face
    rw [hr]

/-- Environment for simple_face_match.verify_face in which cv2.imread
raises. -/
def envC3S : SimpleFM.Env Unit :=
  { pathExists := fun _ => true
    imread := fun _ => .error ("boom")
    extract := fun _ => some ()
    metrics := msC4 }

/-- Environment for advanced_face_match.verify_face in which cv2.imread
raises. -/
def envC3A : AdvancedFM.Env Unit Unit :=
  { pathExists := fun _ => true
    imread := fun _ => .error ("boom")
    userIdOf := fun s => s
    get_face_encoding := fun _ => some ()
    distance := fun _ _ => 0
    extract := fun _ => some ()
    addl_scores := fun _ _ => []
    cache := fun _ => none }

/-- Witness for C3: with imread raising, both verification services
return the structured catch-all error result instead of propagating. -/
theorem c3_verification_never_raises_witness :
    SimpleFM.verify_face envC3S ("a.jpg") ("b.jpg") (1/20)
      = { matched := false, face_detected := false, error := some ("boom") } ∧
    AdvancedFM.verify_face envC3A ("a.jpg") ("b.jpg") (3/5)
      = { matched := false, similarity := 0, method := ("error"),
          error := some ("boom"), face_detected := some false } :=
  ⟨(c3_verification_never_raises Unit Unit envC3S envC3A ("a.jpg") ("b.jpg") (1/20)).1
      ("boom") rfl,
   (c3_verification_never_raises Unit Unit envC3S envC3A ("a.jpg") ("b.jpg") (3/5)).2.2.2.1
      ("boom") rfl⟩

/-- C8: when no face is detected in either of the two input images,
both verification services return a structured result whose
face-detected flag is false and whose match flag is false (the source
collapses the two per-side flags of the target design into one
face_detected field), with no exception raised. -/
theorem c8_no_face_either_side :
    ∀ (α ε : Type) (envS : SimpleFM.Env α) (envA : AdvancedFM.Env α ε)
      (p sp : String) (t : ℚ) (img simg : α),
      envS.pathExists p = true → envS.pathExists sp = true →
      envS.imread p = .ok (some img) → envS.imread sp = .ok (some simg) →
      envS.extract img = none → envS.extract simg = none →
      envA.pathExists p = true → envA.pathExists sp = true →
      envA.imread p = .ok (some img) → envA.imread sp = .ok (some simg) →
      envA.get_face_encoding img = none →
      (SimpleFM.verify_face envS p sp t).matched = false ∧
      (SimpleFM.verify_face envS p sp t).face_detected = false ∧
      (SimpleFM.verify_face envS p sp t).error
          = some ("No face detected in input image") ∧
      (AdvancedFM.verify_face envA p sp t).matched = false ∧
      (AdvancedFM.verify_face envA p sp t).face_detected = some false := by
  intro α ε envS envA p sp t img simg hp hsp hr hsr hx1 hx2 hap hasp har hasr hge
  have hs : SimpleFM.verify_face envS p sp t
      = { matched := false, face_detected := false,
          error := some ("No face detected in input image") } := by
    have hbody : SimpleFM.verify_face_body envS p sp t
        = .ok { matched := false, face_detected := false,
                error := some ("No face detected in input image") } := by
      unfold SimpleFM.verify_face_body
      rw [hp, hsp, hr, hsr]
      simp only [Bool.true_eq_false, if_false, hx1]
    unfold SimpleFM.verify_face
    rw [hbody]
  have ha : AdvancedFM.verify_face envA p sp t
      = { matched := false, similarity := 0, method := ("error"),
          error := some ("Could not detect face in input image"),
          face_detected := some false } := by
    have hbody : AdvancedFM.verify_face_body envA p sp t
        = .ok { matched := false, similarity := 0, method := ("error"),
                error := some ("Could not detect face in input image"),
                face_detected := some false } := by
      unfold AdvancedFM.verify_face_body
      rw [hap, hasp, har, hasr]
      simp only [Bool.true_eq_false, if_false, hge]
    unfold AdvancedFM.verify_face
    rw [hbody]
  rw [hs, ha]
  exact ⟨rfl, rfl, rfl, rfl, rfl⟩

/-- Environment for simple_face_match.verify_face in which images load
but no face is detectable on either side. -/
def envC8S : SimpleFM.Env Unit :=
  { pathExists := fun _ => true
    imread := fun _ => .ok (some ())
    extract := fun _ => none
    metrics := msC4 }

/-- Environment for advanced_face_match.verify_face in which images
load but no face is detectable. -/
def envC8A : AdvancedFM.Env Unit Unit :=
  { pathExists := fun _ => true
    imread := fun _ => .ok (some ())
    userIdOf := fun s => s
    get_face_encoding := fun _ => none
    distance := fun _ _ => 0
    extract := fun _ => none
    addl_scores := fun _ _ => []
    cache := fun _ => none }

/-- Witness for C8 at the concrete environments envC8S and envC8A. -/
theorem c8_no_face_either_side_witness :
    (SimpleFM.verify_face envC8S ("a.jpg") ("b.jpg") (1/20)).matched = false ∧
    (SimpleFM.verify_face envC8S ("a.jpg") ("b.jpg") (1/20)).face_detected = false ∧
    (SimpleFM.verify_face envC8S ("a.jpg") ("b.jpg") (1/20)).error
        = some ("No face detected in input image") ∧
    (AdvancedFM.verify_face envC8A ("a.jpg") ("b.jpg") (3/5)).matched = false ∧
    (AdvancedFM.verify_face envC8A ("a.jpg") ("b.jpg") (3/5)).face_detected = some false := by
  have h1 := c8_no_face_either_side Unit Unit envC8S envC8A ("a.jpg") ("b.jpg") (1/20)
    () () rfl rfl rfl rfl rfl rfl rfl rfl rfl rfl rfl
  have h2 := c8_no_face_either_side Unit Unit envC8S envC8A ("a.jpg") ("b.jpg") (3/5)
    () () rfl rfl rfl rfl rfl rfl rfl rfl rfl rfl rfl
  exact ⟨h1.1, h1.2.1, h1.2.2.1, h2.2.2.2.1, h2.2.2.2.2⟩

/-- C9 (amended): when alignment rotates the image and re-detection on
the rotated image finds no face, extraction falls back to the initially
detected face rectangle cropped from the ROTATED image (not from the
un-rotated image), so alignment never causes an extraction that would
otherwise succeed to fail — the result is always some region. -/
theorem c9_alignment_fallback :
    ∀ (α : Type) (env : FaceMatch.LocEnv α) (img gray aligned : α)
      (f : FaceMatch.Rect) (fs : List FaceMatch.Rect) (ec nl : Bool),
      env.preprocess nl ec img = some gray →
      FaceMatch.detect_faces env gray = f :: fs →
      env.align gray (FaceMatch.largestFace f fs) = some aligned →
      env.detectAt aligned (13/10) = [] →
      FaceMatch.extract_face env (some img) true ec nl
        = some (if ec && !nl then
                  env.clahe (env.resize200 (env.crop aligned (FaceMatch.largestFace f fs)))
                else env.resize200 (env.crop aligned (FaceMatch.largestFace f fs))) := by
  intro α env img gray aligned f fs ec nl hpre hdet hal hre
  simp [FaceMatch.extract_face, hpre, hdet, hal, hre]

/-- Concrete locator environment over ℕ (images are numbers): the
original grayscale image 0 detects one face at scale 1.1, alignment
produces the rotated image 1, on which no face is re-detected; cropping
image g at a rectangle yields 10*g + x, making crops of the rotated and
un-rotated images distinguishable. -/
def envC9 : FaceMatch.LocEnv ℕ :=
  { preprocess := fun _ _ img => some img
    detectAt := fun img s => if img = 0 ∧ s = 11/10 then [⟨0, 0, 2, 2⟩] else []
    align := fun _ _ => some 1
    crop := fun img r => 10 * img + r.x
    resize200 := fun a => a
    clahe := fun a => a }

/-- Counterexample for C9 as stated: in envC9 re-detection on the
rotated image fails, and the extraction result is the original
rectangle cropped from the rotated image — which differs from the face
region of the un-rotated image that the claim predicts. -/
theorem c9_alignment_fallback_counterexample :
    FaceMatch.detect_faces envC9 0 = [⟨0, 0, 2, 2⟩] ∧
    envC9.align 0 ⟨0, 0, 2, 2⟩ = some 1 ∧
    envC9.detectAt 1 (13/10) = [] ∧
    FaceMatch.extract_face envC9 (some 0) true false true
      = some (envC9.resize200 (envC9.crop 1 ⟨0, 0, 2, 2⟩)) ∧
    FaceMatch.extract_face envC9 (some 0) true false true
      ≠ some (envC9.resize200 (envC9.crop 0 ⟨0, 0, 2, 2⟩)) := by
  have hd0 : FaceMatch.detect_faces envC9 0 = [⟨0, 0, 2, 2⟩] := by
    norm_num [FaceMatch.detect_faces, envC9]
  have hd1 : envC9.detectAt 1 (13/10) = [] := by
    norm_num [envC9]
  have hx : FaceMatch.extract_face envC9 (some 0) true false true
      = some (envC9.resize200 (envC9.crop 1 ⟨0, 0, 2, 2⟩)) := by
    norm_num [FaceMatch.extract_face, FaceMatch.detect_faces, FaceMatch.largestFace, envC9]
  refine ⟨hd0, rfl, hd1, hx, ?_⟩
  rw [hx]
  intro h
  have h2 : envC9.resize200 (envC9.crop 1 ⟨0, 0, 2, 2⟩)
      = envC9.resize200 (envC9.crop 0 ⟨0, 0, 2, 2⟩) := Option.some.inj h
  norm_num [envC9] at h2

/-- Witness for the amended C9 at the concrete environment envC9. -/
theorem c9_alignment_fallback_witness :
    FaceMatch.extract_face envC9 (some 0) true false true
      = some (if false && !true then
                envC9.clahe (envC9.resize200 (envC9.crop 1 (FaceMatch.largestFace ⟨0, 0, 2, 2⟩ [])))
              else envC9.resize200 (envC9.crop 1 (FaceMatch.largestFace ⟨0, 0, 2, 2⟩ []))) :=
  c9_alignment_fallback ℕ envC9 0 0 1 ⟨0, 0, 2, 2⟩ [] false true rfl
    (by norm_num [FaceMatch.detect_faces, envC9]) rfl (by norm_num [envC9])

/-- When every remaining user scores at most the threshold, the simple
scan loop reaches the end and reports no duplicate, regardless of the
running best score. -/
theorem scanLoop_no_hit {α : Type} (env : SimpleFM.ScanEnv α) (f : α) (t : ℚ) :
    ∀ (L : List SimpleFM.RegUser) (b : ℚ),
      (∀ u ∈ L, ∀ v, SimpleFM.simOf env f u = some v → v ≤ t) →
      SimpleFM.scanLoop env f t L b = (false, none) := by
  intro L
  induction L with
  | nil => intro b _; rfl
  | cons u rest ih =>
    intro b h
    rcases hreg : SimpleFM.regFace env u with _ | g
    · simp only [SimpleFM.scanLoop, hreg]
      exact ih b (fun u2 hu v hv => h u2 (List.mem_cons_of_mem _ hu) v hv)
    · have hsim : SimpleFM.simOf env f u
          = some (SimpleFM.compute_similarity env.metrics (some f) (some g)) := by
        unfold SimpleFM.simOf
        rw [hreg]
        rfl
      have hle := h u (List.mem_cons_self _ _) _ hsim
      simp only [SimpleFM.scanLoop, hreg]
      rw [if_neg (not_lt.mpr hle)]
      exact ih _ (fun u2 hu v hv => h u2 (List.mem_cons_of_mem _ hu) v hv)

/-- When every user before the duplicate scores at most the threshold
and the duplicate scores strictly above it, the simple scan loop
early-exits at the duplicate and returns its user description. -/
theorem scanLoop_hits_dup {α : Type} (env : SimpleFM.ScanEnv α) (f : α) (t : ℚ)
    (dup : SimpleFM.RegUser) (post : List SimpleFM.RegUser) (s : ℚ)
    (hdup : SimpleFM.simOf env f dup = some s) (ht : t < s) :
    ∀ (pre : List SimpleFM.RegUser) (b : ℚ),
      (∀ u ∈ pre, ∀ v, SimpleFM.simOf env f u = some v → v ≤ t) →
      SimpleFM.scanLoop env f t (pre ++ dup :: post) b
        = (true, some (SimpleFM.user_info dup)) := by
  intro pre
  induction pre with
  | nil =>
    intro b _
    rcases hreg : SimpleFM.regFace env dup with _ | g
    · rw [SimpleFM.simOf, hreg] at hdup
      exact absurd hdup (by simp)
    · have hs : SimpleFM.compute_similarity env.metrics (some f) (some g) = s := by
        rw [SimpleFM.simOf, hreg] at hdup
        exact Option.some.inj hdup
      show SimpleFM.scanLoop env f t (dup :: post) b = _
      simp only [SimpleFM.scanLoop, hreg]
      rw [hs, if_pos ht]
  | cons u pre2 ih =>
    intro b h
    show SimpleFM.scanLoop env f t (u :: (pre2 ++ dup :: post)) b = _
    rcases hreg : SimpleFM.regFace env u with _ | g
    · simp only [SimpleFM.scanLoop, hreg]
      exact ih b (fun u2 hu v hv => h u2 (List.mem_cons_of_mem _ hu) v hv)
    · have hsim : SimpleFM.simOf env f u
          = some (SimpleFM.compute_similarity env.metrics (some f) (some g)) := by
        unfold SimpleFM.simOf
        rw [hreg]
        rfl
      have hle := h u (List.mem_cons_self _ _) _ hsim
      simp only [SimpleFM.scanLoop, hreg]
      rw [if_neg (not_lt.mpr hle)]
      exact ih _ (fun u2 hu v hv => h u2 (List.mem_cons_of_mem _ hu) v hv)

/-- The stored encoding resolved for a user depends on the running cache
only through the user's own id: caches agreeing there resolve the same
encoding. -/
theorem aEnc_congr {α ε : Type} (env : AdvancedFM.AScanEnv α ε)
    (c : String → Option ε) (u : AdvancedFM.RegUserA)
    (h : c u.user_id = env.cache u.user_id) :
    AdvancedFM.aEnc env c u = AdvancedFM.aEnc env env.cache u := by
  unfold AdvancedFM.aEnc
  cases hip : u.image_path with
  | none => rfl
  | some p =>
    by_cases hpe : env.pathExists p <;> simp [hpe, h]

/-- One-step characterization of the advanced scan loop: a user either
resolves no encoding (skip) or resolves encoding e, in which case the
running cache is extended at the user's id (a no-op when the encoding
came from a cache hit) and the best score and best username are updated
when the user's similarity strictly improves on the running best. -/
theorem aLoop_cons_eq {α ε : Type} (env : AdvancedFM.AScanEnv α ε) (q : ε) (t : ℚ)
    (u : AdvancedFM.RegUserA) (rest : List AdvancedFM.RegUserA)
    (c : String → Option ε) (b : ℚ) (bm : Option String) :
    AdvancedFM.aLoop env q t (u :: rest) c b bm =
      match AdvancedFM.aEnc env c u with
      | none => AdvancedFM.aLoop env q t rest c b bm
      | some e =>
        if 1 - min (env.distance e q) 1 > b then
          AdvancedFM.aLoop env q t rest
            (fun id => if id = u.user_id then some e else c id)
            (1 - min (env.distance e q) 1) (some u.username)
        else
          AdvancedFM.aLoop env q t rest
            (fun id => if id = u.user_id then some e else c id) b bm := by
  cases hip : u.image_path with
  | none =>
    simp only [AdvancedFM.aLoop, AdvancedFM.aEnc, hip]
  | some p =>
    by_cases hpe : env.pathExists p
    · cases hc : c u.user_id with
      | some e =>
        have hcfun : (fun id => if id = u.user_id then some e else c id) = c := by
          funext id
          by_cases hid : id = u.user_id
          · rw [if_pos hid, hid, hc]
          · rw [if_neg hid]
        simp only [AdvancedFM.aLoop, AdvancedFM.aEnc, hip, hpe, if_true, hc, hcfun]
        rfl
      | none =>
        cases he : (env.imread p).bind env.get_face_encoding with
        | none =>
          simp only [AdvancedFM.aLoop, AdvancedFM.aEnc, hip, hpe, if_true, hc, he]
        | some e =>
          simp only [AdvancedFM.aLoop, AdvancedFM.aEnc, hip, hpe, if_true, hc, he]
          rfl
    · have hpe2 : env.pathExists p = false := by
        rw [Bool.not_eq_true] at hpe
        exact hpe
      simp only [AdvancedFM.aLoop, AdvancedFM.aEnc, hip, hpe2]
      simp

/-- Unfolding of the scan similarity through a resolved encoding. -/
theorem aSim_of_aEnc {α ε : Type} (env : AdvancedFM.AScanEnv α ε) (q : ε)
    (u : AdvancedFM.RegUserA) (e : ε)
    (h : AdvancedFM.aEnc env env.cache u = some e) :
    AdvancedFM.aSim env q u = some (1 - min (env.distance e q) 1) := by
  unfold AdvancedFM.aSim
  rw [h]
  rfl

/-- Updating the running cache at a user id absent from the remaining
users preserves agreement with the initial cache on those users. -/
theorem agree_update {α ε : Type} (env : AdvancedFM.AScanEnv α ε)
    (c : String → Option ε) (u : AdvancedFM.RegUserA)
    (rest : List AdvancedFM.RegUserA) (e : ε)
    (hnotin : u.user_id ∉ rest.map (fun u2 => u2.user_id))
    (hagree : ∀ u2 ∈ rest, c u2.user_id = env.cache u2.user_id) :
    ∀ u2 ∈ rest,
      (fun id => if id = u.user_id then some e else c id) u2.user_id
        = env.cache u2.user_id := by
  intro u2 h2
  have hne : u2.user_id ≠ u.user_id := by
    intro he
    exact hnotin (he ▸ List.mem_map_of_mem _ h2)
  simp only [if_neg hne]
  exact hagree u2 h2

/-- Skip step of the advanced scan loop: a user resolving no encoding
leaves cache, best score and best username unchanged. -/
theorem aLoop_cons_none {α ε : Type} (env : AdvancedFM.AScanEnv α ε) (q : ε) (t : ℚ)
    (u : AdvancedFM.RegUserA) (rest : List AdvancedFM.RegUserA)
    (c : String → Option ε) (b : ℚ) (bm : Option String)
    (h : AdvancedFM.aEnc env c u = none) :
    AdvancedFM.aLoop env q t (u :: rest) c b bm
      = AdvancedFM.aLoop env q t rest c b bm := by
  rw [aLoop_cons_eq, h]

/-- Scoring step of the advanced scan loop: a user resolving encoding e
extends the cache at its id and updates the running best exactly when
its similarity strictly improves on it. -/
theorem aLoop_cons_some {α ε : Type} (env : AdvancedFM.AScanEnv α ε) (q : ε) (t : ℚ)
    (u : AdvancedFM.RegUserA) (rest : List AdvancedFM.RegUserA)
    (c : String → Option ε) (b : ℚ) (bm : Option String) (e : ε)
    (h : AdvancedFM.aEnc env c u = some e) :
    AdvancedFM.aLoop env q t (u :: rest) c b bm
      = (if 1 - min (env.distance e q) 1 > b then
          AdvancedFM.aLoop env q t rest
            (fun id => if id = u.user_id then some e else c id)
            (1 - min (env.distance e q) 1) (some u.username)
        else
          AdvancedFM.aLoop env q t rest
            (fun id => if id = u.user_id then some e else c id) b bm) := by
  rw [aLoop_cons_eq, h]

/-- When every remaining user's similarity is at most the running best,
the advanced scan loop never updates the best score or username and ends
comparing the running best with the threshold. -/
theorem aLoop_all_le {α ε : Type} (env : AdvancedFM.AScanEnv α ε) (q : ε) (t : ℚ) :
    ∀ (L : List AdvancedFM.RegUserA) (c : String → Option ε) (b : ℚ) (bm : Option String),
      ((L.map (fun u => u.user_id)).Nodup) →
      (∀ u ∈ L, c u.user_id = env.cache u.user_id) →
      (∀ u ∈ L, ∀ v, AdvancedFM.aSim env q u = some v → v ≤ b) →
      AdvancedFM.aLoop env q t L c b bm = (decide (b ≥ t), bm) := by
  intro L
  induction L with
  | nil => intro c b bm _ _ _; rfl
  | cons u rest ih =>
    intro c b bm hnd hagree hbound
    rw [List.map_cons] at hnd
    obtain ⟨hnotin, hndrest⟩ := List.nodup_cons.mp hnd
    have hagrest : ∀ u2 ∈ rest, c u2.user_id = env.cache u2.user_id :=
      fun u2 h2 => hagree u2 (List.mem_cons_of_mem _ h2)
    have hbrest : ∀ u2 ∈ rest, ∀ v, AdvancedFM.aSim env q u2 = some v → v ≤ b :=
      fun u2 h2 v hv => hbound u2 (List.mem_cons_of_mem _ h2) v hv
    cases hae : AdvancedFM.aEnc env c u with
    | none =>
      rw [aLoop_cons_none env q t u rest c b bm hae]
      exact ih c b bm hndrest hagrest hbrest
    | some e =>
      have hae2 : AdvancedFM.aEnc env env.cache u = some e := by
        rw [← aEnc_congr env c u (hagree u (List.mem_cons_self _ _))]
        exact hae
      have hs := hbound u (List.mem_cons_self _ _) _ (aSim_of_aEnc env q u e hae2)
      rw [aLoop_cons_some env q t u rest c b bm e hae, if_neg (not_lt.mpr hs)]
      exact ih _ b bm hndrest (agree_update env c u rest e hnotin hagrest) hbrest

/-- When every user's similarity is bounded by B and the threshold is
above B, the advanced scan reports no duplicate. -/
theorem aLoop_bounded_flag {α ε : Type} (env : AdvancedFM.AScanEnv α ε) (q : ε)
    (t B : ℚ) (hBt : B < t) :
    ∀ (L : List AdvancedFM.RegUserA) (c : String → Option ε) (b : ℚ) (bm : Option String),
      ((L.map (fun u => u.user_id)).Nodup) →
      (∀ u ∈ L, c u.user_id = env.cache u.user_id) →
      (∀ u ∈ L, ∀ v, AdvancedFM.aSim env q u = some v → v ≤ B) →
      b ≤ B →
      (AdvancedFM.aLoop env q t L c b bm).1 = false := by
  intro L
  induction L with
  | nil =>
    intro c b bm _ _ _ hb
    show decide (b ≥ t) = false
    exact decide_eq_false (by linarith)
  | cons u rest ih =>
    intro c b bm hnd hagree hbound hb
    rw [List.map_cons] at hnd
    obtain ⟨hnotin, hndrest⟩ := List.nodup_cons.mp hnd
    have hagrest : ∀ u2 ∈ rest, c u2.user_id = env.cache u2.user_id :=
      fun u2 h2 => hagree u2 (List.mem_cons_of_mem _ h2)
    have hbrest : ∀ u2 ∈ rest, ∀ v, AdvancedFM.aSim env q u2 = some v → v ≤ B :=
      fun u2 h2 v hv => hbound u2 (List.mem_cons_of_mem _ h2) v hv
    cases hae : AdvancedFM.aEnc env c u with
    | none =>
      rw [aLoop_cons_none env q t u rest c b bm hae]
      exact ih c b bm hndrest hagrest hbrest hb
    | some e =>
      have hae2 : AdvancedFM.aEnc env env.cache u = some e := by
        rw [← aEnc_congr env c u (hagree u (List.mem_cons_self _ _))]
        exact hae
      have hsB := hbound u (List.mem_cons_self _ _) _ (aSim_of_aEnc env q u e hae2)
      rw [aLoop_cons_some env q t u rest c b bm e hae]
      by_cases hgt : 1 - min (env.distance e q) 1 > b
      · rw [if_pos hgt]
        exact ih _ _ _ hndrest (agree_update env c u rest e hnotin hagrest) hbrest hsB
      · rw [if_neg hgt]
        exact ih _ b bm hndrest (agree_update env c u rest e hnotin hagrest) hbrest hb

/-- When every user before the duplicate scores strictly below the
duplicate's similarity s, the duplicate resolves an encoding scoring s,
and every user after it scores at most s, the advanced scan ends with
best score s and the duplicate's username. -/
theorem aLoop_finds_dup {α ε : Type} (env : AdvancedFM.AScanEnv α ε) (q : ε) (t : ℚ)
    (dup : AdvancedFM.RegUserA) (post : List AdvancedFM.RegUserA) (s : ℚ)
    (hdup : AdvancedFM.aSim env q dup = some s)
    (hpost : ∀ u ∈ post, ∀ v, AdvancedFM.aSim env q u = some v → v ≤ s) :
    ∀ (pre : List AdvancedFM.RegUserA) (c : String → Option ε) (b : ℚ) (bm : Option String),
      (((pre ++ dup :: post).map (fun u => u.user_id)).Nodup) →
      (∀ u ∈ pre ++ dup :: post, c u.user_id = env.cache u.user_id) →
      (∀ u ∈ pre, ∀ v, AdvancedFM.aSim env q u = some v → v < s) →
      b < s →
      AdvancedFM.aLoop env q t (pre ++ dup :: post) c b bm
        = (decide (s ≥ t), some dup.username) := by
  intro pre
  induction pre with
  | nil =>
    intro c b bm hnd hagree _ hb
    rw [List.nil_append] at hnd hagree ⊢
    rw [List.map_cons] at hnd
    obtain ⟨hnotin, hndrest⟩ := List.nodup_cons.mp hnd
    obtain ⟨e, hae2, hse⟩ : ∃ e, AdvancedFM.aEnc env env.cache dup = some e ∧
        1 - min (env.distance e q) 1 = s := by
      unfold AdvancedFM.aSim at hdup
      cases hre : AdvancedFM.aEnc env env.cache dup with
      | none => rw [hre] at hdup; exact absurd hdup (by simp)
      | some e0 =>
        rw [hre] at hdup
        exact ⟨e0, rfl, Option.some.inj hdup⟩
    have hae : AdvancedFM.aEnc env c dup = some e := by
      rw [aEnc_congr env c dup (hagree dup (List.mem_cons_self _ _))]
      exact hae2
    rw [aLoop_cons_some env q t dup post c b bm e hae, hse, if_pos hb]
    exact aLoop_all_le env q t post _ s (some dup.username) hndrest
      (agree_update env c dup post e hnotin
        (fun u2 h2 => hagree u2 (List.mem_cons_of_mem _ h2)))
      hpost
  | cons u pre2 ih =>
    intro c b bm hnd hagree hpre hb
    rw [List.cons_append] at hnd hagree ⊢
    rw [List.map_cons] at hnd
    obtain ⟨hnotin, hndrest⟩ := List.nodup_cons.mp hnd
    have hagrest : ∀ u2 ∈ pre2 ++ dup :: post, c u2.user_id = env.cache u2.user_id :=
      fun u2 h2 => hagree u2 (List.mem_cons_of_mem _ h2)
    have hprest : ∀ u2 ∈ pre2, ∀ v, AdvancedFM.aSim env q u2 = some v → v < s :=
      fun u2 h2 v hv => hpre u2 (List.mem_cons_of_mem _ h2) v hv
    cases hae : AdvancedFM.aEnc env c u with
    | none =>
      rw [aLoop_cons_none env q t u (pre2 ++ dup :: post) c b bm hae]
      exact ih c b bm hndrest hagrest hprest hb
    | some e =>
      have hae2 : AdvancedFM.aEnc env env.cache u = some e := by
        rw [← aEnc_congr env c u (hagree u (List.mem_cons_self _ _))]
        exact hae
      have hlt := hpre u (List.mem_cons_self _ _) _ (aSim_of_aEnc env q u e hae2)
      rw [aLoop_cons_some env q t u (pre2 ++ dup :: post) c b bm e hae]
      by_cases hgt : 1 - min (env.distance e q) 1 > b
      · rw [if_pos hgt]
        exact ih _ _ _ hndrest
          (agree_update env c u (pre2 ++ dup :: post) e hnotin hagrest) hprest hlt
      · rw [if_neg hgt]
        exact ih _ b bm hndrest
          (agree_update env c u (pre2 ++ dup :: post) e hnotin hagrest) hprest hb

/-- Any similarity the advanced scan computes is nonnegative, since it
has the form 1 - min(distance, 1). -/
theorem aSim_nonneg {α ε : Type} (env : AdvancedFM.AScanEnv α ε) (q : ε)
    (u : AdvancedFM.RegUserA) (v : ℚ) (h : AdvancedFM.aSim env q u = some v) :
    0 ≤ v := by
  unfold AdvancedFM.aSim at h
  cases hre : AdvancedFM.aEnc env env.cache u with
  | none => rw [hre] at h; exact absurd h (by simp)
  | some e =>
    rw [hre] at h
    have hv : 1 - min (env.distance e q) 1 = v := Option.some.inj h
    have hm := min_le_right (env.distance e q) (1 : ℚ)
    linarith

/-- C6: in a corpus containing exactly one true duplicate of the query
face (its similarity s strictly dominates every other identity, and
under the early-exit policy no other identity clears the low threshold),
a duplicate scan with the threshold set below s returns that identity,
and the same scan with the threshold set above s reports no duplicate —
for both the early-exit simple scanner and the best-of-corpus advanced
scanner (the latter under distinct user ids, so cache updates during the
scan do not interfere). -/
theorem c6_duplicate_scan_thresholds :
    ∀ (α ε : Type) (envS : SimpleFM.ScanEnv α) (envA : AdvancedFM.AScanEnv α ε)
      (img f : α)
      (preS postS : List SimpleFM.RegUser) (dupS : SimpleFM.RegUser)
      (preA postA : List AdvancedFM.RegUserA) (dupA : AdvancedFM.RegUserA)
      (imgA rgb : α) (q : ε) (s sA tLo tHi tLoA tHiA : ℚ),
      envS.extract img = some f →
      envS.users = preS ++ dupS :: postS →
      SimpleFM.simOf envS f dupS = some s →
      (∀ u ∈ preS, ∀ v, SimpleFM.simOf envS f u = some v → v ≤ tLo) →
      (∀ u ∈ postS, ∀ v, SimpleFM.simOf envS f u = some v → v ≤ tLo) →
      tLo < s → s ≤ tHi → tLo ≤ tHi →
      envA.users = preA ++ dupA :: postA →
      (((preA ++ dupA :: postA).map (fun u => u.user_id)).Nodup) →
      envA.preprocess imgA = some rgb →
      envA.get_face_encoding rgb = some q →
      AdvancedFM.aSim envA q dupA = some sA →
      (∀ u ∈ preA, ∀ v, AdvancedFM.aSim envA q u = some v → v < sA) →
      (∀ u ∈ postA, ∀ v, AdvancedFM.aSim envA q u = some v → v < sA) →
      tLoA ≤ sA → sA < tHiA →
      SimpleFM.is_face_duplicate_with envS tLo (some img)
          = (true, some (SimpleFM.user_info dupS)) ∧
      SimpleFM.is_face_duplicate_with envS tHi (some img) = (false, none) ∧
      AdvancedFM.a_is_face_duplicate_with envA tLoA (some imgA)
          = (true, some dupA.username) ∧
      (AdvancedFM.a_is_face_duplicate_with envA tHiA (some imgA)).1 = false := by
  intro α ε envS envA img f preS postS dupS preA postA dupA imgA rgb q s sA tLo tHi
    tLoA tHiA hx husers hdupS hpreS hpostS htlo hthi htlohi husersA hnd hprep henc
    hdupA hpreA hpostA htloA hthiA
  have hsA0 : 0 ≤ sA := aSim_nonneg envA q dupA sA hdupA
  have hopenS : ∀ t2 : ℚ, SimpleFM.is_face_duplicate_with envS t2 (some img)
      = SimpleFM.scanLoop envS f t2 (preS ++ dupS :: postS) 0 := by
    intro t2
    unfold SimpleFM.is_face_duplicate_with
    rw [show (some img).bind envS.extract = envS.extract img from rfl, hx, husers]
  have hopenA : ∀ t2 : ℚ, AdvancedFM.a_is_face_duplicate_with envA t2 (some imgA)
      = AdvancedFM.aLoop envA q t2 (preA ++ dupA :: postA) envA.cache (-1) none := by
    intro t2
    unfold AdvancedFM.a_is_face_duplicate_with
    rw [show (some imgA).bind envA.preprocess = envA.preprocess imgA from rfl, hprep]
    show (match envA.get_face_encoding rgb with
          | none => (false, none)
          | some q2 => AdvancedFM.aLoop envA q2 t2 envA.users envA.cache (-1) none) = _
    rw [henc]
    show AdvancedFM.aLoop envA q t2 envA.users envA.cache (-1) none = _
    rw [husersA]
  refine ⟨?_, ?_, ?_, ?_⟩
  · rw [hopenS tLo]
    exact scanLoop_hits_dup envS f tLo dupS postS s hdupS htlo preS 0 hpreS
  · rw [hopenS tHi]
    refine scanLoop_no_hit envS f tHi (preS ++ dupS :: postS) 0 ?_
    intro u hu v hv
    rcases List.mem_append.mp hu with hu | hu
    · exact le_trans (hpreS u hu v hv) htlohi
    · rcases List.mem_cons.mp hu with hu | hu
      · subst hu
        rw [hdupS] at hv
        rw [← Option.some.inj hv]
        exact hthi
      · exact le_trans (hpostS u hu v hv) htlohi
  · rw [hopenA tLoA]
    rw [aLoop_finds_dup envA q tLoA dupA postA sA hdupA
      (fun u hu v hv => le_of_lt (hpostA u hu v hv)) preA envA.cache (-1) none hnd
      (fun u _ => rfl) hpreA (by linarith)]
    rw [decide_eq_true (by exact htloA : sA ≥ tLoA)]
  · rw [hopenA tHiA]
    refine aLoop_bounded_flag envA q tHiA sA hthiA (preA ++ dupA :: postA)
      envA.cache (-1) none hnd (fun u _ => rfl) ?_ (by linarith)
    intro u hu v hv
    rcases List.mem_append.mp hu with hu | hu
    · exact le_of_lt (hpreA u hu v hv)
    · rcases List.mem_cons.mp hu with hu | hu
      · subst hu
        rw [hdupA] at hv
        exact le_of_eq (Option.some.inj hv).symm
      · exact le_of_lt (hpostA u hu v hv)

/-- Concrete simple scan environment: one registered user whose face
extracts and scores 0.5 against the query. -/
def envC6S : SimpleFM.ScanEnv Unit :=
  { pathExists := fun _ => true
    imread := fun _ => some ()
    extract := fun _ => some ()
    metrics := { template := fun _ _ => 1/2, ssim := fun _ _ => 1/2, hist := fun _ _ => 1/2 }
    users := [{ username := ("alice"), email := none, image_path := some ("pa.jpg") }] }

/-- Concrete advanced scan environment: one registered user, empty
cache, encoding distance 0.25 (similarity 0.75). -/
def envC6A : AdvancedFM.AScanEnv Unit Unit :=
  { preprocess := fun _ => some ()
    get_face_encoding := fun _ => some ()
    distance := fun _ _ => 1/4
    pathExists := fun _ => true
    imread := fun _ => some ()
    cache := fun _ => none
    users := [{ user_id := ("id1"), username := ("bob"), image_path := some ("pb.jpg") }] }

/-- Witness for C6 at the concrete environments envC6S (duplicate
similarity 0.5, thresholds 0.25 and 0.75) and envC6A (duplicate
similarity 0.75, thresholds 0.6 and 0.9). -/
theorem c6_duplicate_scan_thresholds_witness :
    SimpleFM.is_face_duplicate_with envC6S (1/4) (some ())
        = (true, some ("alice")) ∧
    SimpleFM.is_face_duplicate_with envC6S (3/4) (some ()) = (false, none) ∧
    AdvancedFM.a_is_face_duplicate_with envC6A (3/5) (some ())
        = (true, some ("bob")) ∧
    (AdvancedFM.a_is_face_duplicate_with envC6A (9/10) (some ())).1 = false :=
  c6_duplicate_scan_thresholds Unit Unit envC6S envC6A () () [] []
    { username := ("alice"), email := none, image_path := some ("pa.jpg") } [] []
    { user_id := ("id1"), username := ("bob"), image_path := some ("pb.jpg") }
    () () () (1/2) (3/4) (1/4) (3/4) (3/5) (9/10)
    rfl rfl
    (by norm_num [SimpleFM.simOf, SimpleFM.regFace, SimpleFM.compute_similarity, envC6S])
    (fun u hu => absurd hu (List.not_mem_nil u))
    (fun u hu => absurd hu (List.not_mem_nil u))
    (by norm_num) (by norm_num) (by norm_num)
    rfl (by simp) rfl rfl
    (by norm_num [AdvancedFM.aSim, AdvancedFM.aEnc, envC6A])
    (fun u hu => absurd hu (List.not_mem_nil u))
    (fun u hu => absurd hu (List.not_mem_nil u))
    (by norm_num) (by norm_num)

end AuthAI
